import Mathlib

/-!
Verification of the Edison catalogue backend (backend_serveur.py) against its
natural-language specification.

The service stores products, families and users in SQLite tables and exposes
CRUD endpoints over them.  We embed the persistent state shallowly:

* a SQLite table row becomes a Lean structure whose fields are the columns
  (REAL prices are modelled as `Rat`, TEXT timestamps as `String`, nullable
  columns as `Option`);
* a table becomes a `List` of rows, in insertion order (SQLite with no
  ORDER BY returns rows in rowid order, which for these tables is insertion
  order);
* each endpoint handler becomes a function from the request data and the
  current table contents to the pair (response, new table contents); the
  wall clock is passed in explicitly as the `now` argument where the code
  reads CURRENT_TIMESTAMP or datetime.now();
* `hashlib.sha256(...).hexdigest()` is an abstract parameter
  `hash : String → String` of the operations that use it, since the claims
  only relate stored hashes to hashes of supplied plaintext.

The batch synchronizer (POST /api/products/batch) and the purchase-request
submitter (POST /api/da) appear in the specification but are absent from the
source file; they are modelled from the spec, and marked as such.
-/

/-- A row of the `products` table (schema from `init_db`):
reference TEXT PRIMARY KEY, designation TEXT, price REAL, unit TEXT,
family TEXT, icon TEXT, created_at TEXT DEFAULT CURRENT_TIMESTAMP.
There is no updated_at column. -/
structure StoredProduct where
  reference : String
  designation : String
  price : Rat
  unit : String
  family : String
  icon : String
  created_at : String
deriving DecidableEq

/-- The request body of POST /api/products (pydantic model `Product`),
after pydantic has applied the default icon. -/
structure Product where
  reference : String
  designation : String
  price : Rat
  unit : String
  family : String
  icon : String
deriving DecidableEq

/-- The request body of PUT /api/products/reference (pydantic model
`ProductUpdate`): every field optional, None meaning "leave unchanged". -/
structure ProductUpdate where
  designation : Option String
  price : Option Rat
  unit : Option String
  family : Option String
  icon : Option String
deriving DecidableEq

/-- The row INSERTed for a product request: the six supplied columns plus
the created_at DEFAULT CURRENT_TIMESTAMP. -/
def Product.toStored (p : Product) (now : String) : StoredProduct :=
  ⟨p.reference, p.designation, p.price, p.unit, p.family, p.icon, now⟩

/-- Outcome of POST /api/products: HTTP 200 success, or HTTP 400 when the
INSERT hits the PRIMARY KEY constraint (sqlite3.IntegrityError). -/
inductive PostStatus where
  | ok : PostStatus
  | dup : PostStatus
deriving DecidableEq

/-- Handler `add_product` (POST /api/products): INSERT the row; the insert
raises IntegrityError exactly when a row with the same PRIMARY KEY
`reference` already exists, in which case the handler answers 400 and the
table is left as it was. -/
def add_product (now : String) (p : Product) (db : List StoredProduct) :
    PostStatus × List StoredProduct :=
  if ∃ q ∈ db, q.reference = p.reference then (.dup, db)
  else (.ok, db ++ [p.toStored now])

/-- The effect of the UPDATE statement built by `update_product` on one row:
each column named in the SET clause (a non-None request field) is
overwritten, every other column keeps its value. -/
def ProductUpdate.applyTo (u : ProductUpdate) (q : StoredProduct) : StoredProduct :=
  { q with
    designation := u.designation.getD q.designation
    price := u.price.getD q.price
    unit := u.unit.getD q.unit
    family := u.family.getD q.family
    icon := u.icon.getD q.icon }

/-- Handler `update_product` (PUT /api/products/reference): SELECT to check
existence (404 → response `none` and no change when absent); otherwise run
UPDATE ... WHERE reference = ? (touching every matching row) and answer with
the re-SELECTed row. -/
def update_product (ref : String) (u : ProductUpdate) (db : List StoredProduct) :
    Option StoredProduct × List StoredProduct :=
  if ∃ q ∈ db, q.reference = ref then
    let db2 := db.map (fun q => if q.reference = ref then u.applyTo q else q)
    (db2.find? (fun q => q.reference == ref), db2)
  else (none, db)

/-- Handler `delete_product` (DELETE /api/products/reference): SELECT the
row (404 → response `none` and no change when absent); otherwise DELETE
... WHERE reference = ? and answer with the previously selected row. -/
def delete_product (ref : String) (db : List StoredProduct) :
    Option StoredProduct × List StoredProduct :=
  match db.find? (fun q => q.reference == ref) with
  | some q => (some q, db.filter (fun p => !(p.reference == ref)))
  | none => (none, db)

example :
    add_product "t" ⟨"P1", "D", 2, "U", "F", "B"⟩ [] =
      (.ok, [⟨"P1", "D", 2, "U", "F", "B", "t"⟩]) := by decide

example :
    add_product "t" ⟨"P1", "D", -1, "U", "F", "B"⟩ [] =
      (.ok, [⟨"P1", "D", -1, "U", "F", "B", "t"⟩]) := by decide

example :
    update_product "P1" ⟨some "X", none, none, none, none⟩
      [⟨"P1", "D", 2, "U", "F", "B", "t0"⟩] =
      (some ⟨"P1", "X", 2, "U", "F", "B", "t0"⟩,
       [⟨"P1", "X", 2, "U", "F", "B", "t0"⟩]) := by decide

example :
    delete_product "P1" [⟨"P1", "D", 2, "U", "F", "B", "t0"⟩, ⟨"P2", "D2", 3, "U", "F", "B", "t1"⟩] =
      (some ⟨"P1", "D", 2, "U", "F", "B", "t0"⟩, [⟨"P2", "D2", 3, "U", "F", "B", "t1"⟩]) := by
  decide

/-- A row of the `users` table: email TEXT PRIMARY KEY, name TEXT,
password TEXT (a hash, never the plaintext), role TEXT DEFAULT user,
created_at TEXT DEFAULT CURRENT_TIMESTAMP, last_login TEXT (nullable). -/
structure StoredUser where
  email : String
  name : String
  password : String
  role : String
  created_at : String
  last_login : Option String
deriving DecidableEq

/-- A user as serialized in responses: dict(user) with the password key
popped (login), or the SELECT of the five non-password columns
(get_users). -/
structure PublicUser where
  email : String
  name : String
  role : String
  created_at : String
  last_login : Option String
deriving DecidableEq

/-- Drop the password column from a stored user row. -/
def StoredUser.toPublic (u : StoredUser) : PublicUser :=
  ⟨u.email, u.name, u.role, u.created_at, u.last_login⟩

/-- The request body of POST /api/login (pydantic model `LoginRequest`). -/
structure LoginRequest where
  email : String
  password : String
deriving DecidableEq

/-- The request body of POST /api/users (pydantic model `User`), after
pydantic has applied the default role. -/
structure UserCreate where
  email : String
  name : String
  password : String
  role : String
deriving DecidableEq

/-- Handler `login` (POST /api/login): SELECT * FROM users WHERE email = ?
AND password = ? with the sha256 hex digest of the supplied password
(`hash` abstracts the digest).  No row → 401, response `none`, no write.
Otherwise UPDATE users SET last_login = now WHERE email = ?, and answer
with the row fetched before the update, password key removed. -/
def login (hash : String → String) (now : String) (req : LoginRequest)
    (db : List StoredUser) : Option PublicUser × List StoredUser :=
  match db.find? (fun u => u.email == req.email && u.password == hash req.password) with
  | none => (none, db)
  | some u =>
      (some u.toPublic,
       db.map (fun v => if v.email = req.email then { v with last_login := some now } else v))

/-- Handler `create_user` (POST /api/users): INSERT the row with the sha256
hex digest of the supplied password; IntegrityError on the email PRIMARY
KEY → 400, modelled as response `false` with the table unchanged. -/
def create_user (hash : String → String) (now : String) (u : UserCreate)
    (db : List StoredUser) : Bool × List StoredUser :=
  if ∃ v ∈ db, v.email = u.email then (false, db)
  else (true, db ++ [⟨u.email, u.name, hash u.password, u.role, now, none⟩])

/-- Handler `get_users` (GET /api/users): SELECT email, name, role,
created_at, last_login FROM users — every row, without the password
column. -/
def get_users (db : List StoredUser) : List PublicUser :=
  db.map StoredUser.toPublic

example :
    login (fun s => String.append "h" s) "t1" ⟨"a@b", "pw"⟩
      [⟨"a@b", "N", "hpw", "user", "t0", none⟩] =
      (some ⟨"a@b", "N", "user", "t0", none⟩,
       [⟨"a@b", "N", "hpw", "user", "t0", some "t1"⟩]) := by decide

example :
    login (fun s => String.append "h" s) "t1" ⟨"a@b", "bad"⟩
      [⟨"a@b", "N", "hpw", "user", "t0", none⟩] =
      (none, [⟨"a@b", "N", "hpw", "user", "t0", none⟩]) := by decide

/-- Modelled from the spec: POST /api/products/batch is absent from
backend_serveur.py; its response shape is given in the spec as
created, updated, failed, errors (list of reference-and-error pairs)
and total. -/
structure BatchReport where
  created : Nat
  updated : Nat
  failed : Nat
  errors : List (String × String)
  total : Nat
deriving DecidableEq

/-- Modelled from the spec: per-item validity for the batch synchronizer.
The spec's worked property names a malformed item as one with a negative
price (partial-failure isolation, testable property 2); a storage error on
an individual item is this same locally-caught failure. -/
def batchItemOk (p : Product) : Bool :=
  decide (0 ≤ p.price)

/-- Modelled from the spec: the per-item upsert of the batch synchronizer —
if a product with the same reference exists, overwrite designation, price,
unit, family and icon; otherwise insert the row.  The Bool reports whether
the item existed (update) or not (create). -/
def upsert_product (now : String) (p : Product) (db : List StoredProduct) :
    Bool × List StoredProduct :=
  if ∃ q ∈ db, q.reference = p.reference then
    (true,
     db.map (fun q =>
       if q.reference = p.reference then
         { q with designation := p.designation, price := p.price,
                  unit := p.unit, family := p.family, icon := p.icon }
       else q))
  else (false, db ++ [p.toStored now])

/-- Modelled from the spec: the store effect of one batch item — the upsert
when the item is valid, no change when its failure is caught locally. -/
def batchStoreStep (now : String) (db : List StoredProduct) (p : Product) :
    List StoredProduct :=
  if batchItemOk p then (upsert_product now p db).2 else db

/-- Modelled from the spec: error message recorded for a failed batch item. -/
def batchErrMsg : String := "invalid price"

/-- Modelled from the spec: one step of the batch loop — a valid item is
upserted and counted as created or updated; an invalid item leaves the
store untouched and is counted as failed, appending its reference and
error message; every item raises the running total. -/
def syncStep (now : String) (acc : BatchReport × List StoredProduct) (p : Product) :
    BatchReport × List StoredProduct :=
  if batchItemOk p then
    let r := acc.1
    let step := upsert_product now p acc.2
    (if step.1 then { r with updated := r.updated + 1, total := r.total + 1 }
     else { r with created := r.created + 1, total := r.total + 1 }, step.2)
  else
    ({ acc.1 with
        failed := acc.1.failed + 1,
        errors := acc.1.errors ++ [(p.reference, batchErrMsg)],
        total := acc.1.total + 1 },
     acc.2)

/-- The all-zero report the batch loop starts from. -/
def emptyReport : BatchReport := ⟨0, 0, 0, [], 0⟩

/-- Modelled from the spec: POST /api/products/batch — fold the per-item
step over the input sequence in order, starting from the zero report. -/
def products_batch (now : String) (items : List Product) (db : List StoredProduct) :
    BatchReport × List StoredProduct :=
  items.foldl (syncStep now) (emptyReport, db)

/-- Componentwise sum of two batch reports (error lists appended). -/
def reportCombine (r s : BatchReport) : BatchReport :=
  ⟨r.created + s.created, r.updated + s.updated, r.failed + s.failed,
   r.errors ++ s.errors, r.total + s.total⟩

/-- The ordered error list the batch reports: one entry per invalid item,
in input order. -/
def batchErrors (items : List Product) : List (String × String) :=
  (items.filter (fun p => !batchItemOk p)).map (fun p => (p.reference, batchErrMsg))

example :
    products_batch "t" [⟨"P1", "A", 2, "U", "F", "B"⟩, ⟨"P2", "Bad", -1, "U", "F", "B"⟩,
        ⟨"P1", "A2", 3, "U", "F", "B"⟩] [] =
      (⟨1, 1, 1, [("P2", "invalid price")], 3⟩, [⟨"P1", "A2", 3, "U", "F", "B", "t"⟩]) := by
  decide

/-- A line-item of a purchase request as submitted (spec data model
DAArticle, minus the parent number which is attached at insertion). -/
structure DAArticleInput where
  reference : String
  designation : String
  quantity : Int
  unit : String
  price : Rat
deriving DecidableEq

/-- A row of the purchase_requests table (spec data model
PurchaseRequest). -/
structure DAHeader where
  da_number : String
  user_email : String
  user_name : String
  site : String
  status : String
  attachment_filename : Option String
  comments : Option String
  created_at : String
deriving DecidableEq

/-- A row of the da_articles table: a line-item tied to its parent
da_number. -/
structure StoredDAArticle where
  da_number : String
  reference : String
  designation : String
  quantity : Int
  unit : String
  price : Rat
deriving DecidableEq

/-- The two tables the purchase-request submitter writes. -/
structure DAState where
  requests : List DAHeader
  da_articles : List StoredDAArticle
deriving DecidableEq

/-- The body of POST /api/da: requester identity, site, line-items,
optional attachment and comments. -/
structure DAInput where
  user_email : String
  user_name : String
  site : String
  articles : List DAArticleInput
  attachment_filename : Option String
  comments : Option String
deriving DecidableEq

/-- Modelled from the spec: a line-item insert fails on out-of-range input
— quantity at most 0 or negative price (spec error conditions for DA
submission). -/
def daArticleOk (a : DAArticleInput) : Bool :=
  decide (0 < a.quantity) && decide (0 ≤ a.price)

/-- Modelled from the spec: insert the line-items one by one, each tied to
the parent da_number; the first failing insert stops the loop and hands
back the partially-written state for rollback. -/
def insertArticles (da : String) : List DAArticleInput → DAState → Except DAState DAState
  | [], st => .ok st
  | a :: rest, st =>
      if daArticleOk a then
        insertArticles da rest
          { st with da_articles :=
              st.da_articles ++ [⟨da, a.reference, a.designation, a.quantity, a.unit, a.price⟩] }
      else .error st

/-- Modelled from the spec: remove every header and line-item written for
this da_number (the rollback of DA submission step 3). -/
def rollbackDA (da : String) (st : DAState) : DAState :=
  { requests := st.requests.filter (fun h => !(h.da_number == da)),
    da_articles := st.da_articles.filter (fun a => !(a.da_number == da)) }

/-- Modelled from the spec: POST /api/da — an empty line-item list is an
InvalidRequest before anything is written; otherwise persist the header
with status pending under the freshly generated da_number (passed in as
`da`), then insert every line-item; if any line-item insert fails, the
whole creation fails and everything written for this request is removed.
The response is the error message, or `none` on success. -/
def submitDA (da now : String) (inp : DAInput) (st : DAState) :
    Option String × DAState :=
  if inp.articles.isEmpty then (some "InvalidRequest", st)
  else
    let st1 : DAState :=
      { st with requests :=
          st.requests ++ [⟨da, inp.user_email, inp.user_name, inp.site, "pending",
                           inp.attachment_filename, inp.comments, now⟩] }
    match insertArticles da inp.articles st1 with
    | .ok st2 => (none, st2)
    | .error stp => (some "InvalidRequest", rollbackDA da stp)

example :
    submitDA "DA-1" "t"
      ⟨"a@b", "N", "S",
       [⟨"P1", "A", 1, "U", 2⟩, ⟨"P2", "B", 2, "U", 3⟩, ⟨"P3", "C", 1, "U", 1⟩,
        ⟨"P4", "D", 0, "U", 1⟩], none, none⟩
      ⟨[], []⟩ =
      (some "InvalidRequest", ⟨[], []⟩) := by decide

example :
    submitDA "DA-1" "t"
      ⟨"a@b", "N", "S", [⟨"P1", "A", 1, "U", 2⟩], none, none⟩ ⟨[], []⟩ =
      (none,
       ⟨[⟨"DA-1", "a@b", "N", "S", "pending", none, none, "t"⟩],
        [⟨"DA-1", "P1", "A", 1, "U", 2⟩]⟩) := by decide

/-- C3: POST /api/products fails with 400 and leaves the product table
unchanged when a product with the supplied reference already exists;
otherwise it succeeds and appends a new row carrying exactly the supplied
fields. -/
theorem C3_add_product_create_or_400 (now : String) (p : Product)
    (db : List StoredProduct) :
    ((∃ q ∈ db, q.reference = p.reference) →
        add_product now p db = (PostStatus.dup, db)) ∧
    ((∀ q ∈ db, q.reference ≠ p.reference) →
        (add_product now p db).1 = PostStatus.ok ∧
        (add_product now p db).2 = db ++ [p.toStored now] ∧
        (p.toStored now).reference = p.reference ∧
        (p.toStored now).designation = p.designation ∧
        (p.toStored now).price = p.price ∧
        (p.toStored now).unit = p.unit ∧
        (p.toStored now).family = p.family ∧
        (p.toStored now).icon = p.icon) := by
  constructor
  · intro h
    simp [add_product, h]
  · intro h
    have hne : ¬ ∃ q ∈ db, q.reference = p.reference := by
      rintro ⟨q, hq, he⟩
      exact h q hq he
    simp [add_product, hne, Product.toStored]

/-- Witness for C3: with reference P1 already stored, the POST answers 400
and the table is unchanged; on an empty table the POST succeeds. -/
theorem C3_witness :
    add_product "t1" ⟨"P1", "D2", 3, "U", "F", "B"⟩
        [⟨"P1", "D", 2, "U", "F", "B", "t0"⟩] =
      (PostStatus.dup, [⟨"P1", "D", 2, "U", "F", "B", "t0"⟩]) ∧
    (add_product "t1" ⟨"P1", "D2", 3, "U", "F", "B"⟩ []).1 = PostStatus.ok :=
  ⟨(C3_add_product_create_or_400 "t1" ⟨"P1", "D2", 3, "U", "F", "B"⟩
      [⟨"P1", "D", 2, "U", "F", "B", "t0"⟩]).1
      ⟨⟨"P1", "D", 2, "U", "F", "B", "t0"⟩, by simp, rfl⟩,
   ((C3_add_product_create_or_400 "t1" ⟨"P1", "D2", 3, "U", "F", "B"⟩ []).2
      (by simp)).1⟩

/-- C4: PUT /api/products/reference fails with 404 and leaves the store
unchanged when no product has that reference; otherwise the matching row is
rewritten with exactly the supplied (non-None) fields, every other field of
that row and every other row are unchanged, and the response is the
resulting record. -/
theorem C4_update_product_fields (ref : String) (u : ProductUpdate)
    (db : List StoredProduct) :
    ((∀ q ∈ db, q.reference ≠ ref) → update_product ref u db = (none, db)) ∧
    ((∃ q ∈ db, q.reference = ref) →
        (update_product ref u db).2 =
          db.map (fun q => if q.reference = ref then u.applyTo q else q) ∧
        (update_product ref u db).1 =
          (update_product ref u db).2.find? (fun q => q.reference == ref) ∧
        (update_product ref u db).1.isSome ∧
        (∀ q : StoredProduct,
          (u.applyTo q).reference = q.reference ∧
          (u.applyTo q).created_at = q.created_at ∧
          (u.applyTo q).designation = u.designation.getD q.designation ∧
          (u.applyTo q).price = u.price.getD q.price ∧
          (u.applyTo q).unit = u.unit.getD q.unit ∧
          (u.applyTo q).family = u.family.getD q.family ∧
          (u.applyTo q).icon = u.icon.getD q.icon)) := by
  constructor
  · intro h
    have hne : ¬ ∃ q ∈ db, q.reference = ref := by
      rintro ⟨q, hq, he⟩
      exact h q hq he
    simp [update_product, hne]
  · rintro ⟨q, hq, he⟩
    have hex : ∃ q ∈ db, q.reference = ref := ⟨q, hq, he⟩
    refine ⟨by simp [update_product, hex], by simp [update_product, hex], ?_, ?_⟩
    · simp only [update_product, if_pos hex]
      rw [List.find?_isSome]
      exact ⟨u.applyTo q, List.mem_map.2 ⟨q, hq, by simp [he]⟩,
        by simp [ProductUpdate.applyTo, he]⟩
    · intro q2
      simp [ProductUpdate.applyTo]

/-- Witness for C4: a PUT on an absent reference answers 404 leaving the
store unchanged, and a PUT overwriting only the designation of P1 leaves
price, unit, family, icon and created_at of P1 and the whole row P2
unchanged. -/
theorem C4_witness :
    update_product "NOPE" ⟨some "X", none, none, none, none⟩
        [⟨"P1", "D", 2, "U", "F", "B", "t0"⟩] =
      (none, [⟨"P1", "D", 2, "U", "F", "B", "t0"⟩]) ∧
    (update_product "P1" ⟨some "X", none, none, none, none⟩
        [⟨"P1", "D", 2, "U", "F", "B", "t0"⟩, ⟨"P2", "E", 3, "U", "G", "B", "t1"⟩]).2 =
      [⟨"P1", "D", 2, "U", "F", "B", "t0"⟩, ⟨"P2", "E", 3, "U", "G", "B", "t1"⟩].map
        (fun q => if q.reference = "P1" then
          ProductUpdate.applyTo ⟨some "X", none, none, none, none⟩ q else q) :=
  ⟨(C4_update_product_fields "NOPE" ⟨some "X", none, none, none, none⟩
      [⟨"P1", "D", 2, "U", "F", "B", "t0"⟩]).1 (by decide),
   ((C4_update_product_fields "P1" ⟨some "X", none, none, none, none⟩
      [⟨"P1", "D", 2, "U", "F", "B", "t0"⟩, ⟨"P2", "E", 3, "U", "G", "B", "t1"⟩]).2
      ⟨⟨"P1", "D", 2, "U", "F", "B", "t0"⟩, by simp, rfl⟩).1⟩

/-- C8: DELETE /api/products/reference fails with 404 and leaves the store
unchanged when no product has that reference; otherwise it succeeds,
exactly the rows with that reference are removed and every other row is
kept. -/
theorem C8_delete_product_spec (ref : String) (db : List StoredProduct) :
    ((∀ q ∈ db, q.reference ≠ ref) → delete_product ref db = (none, db)) ∧
    ((∃ q ∈ db, q.reference = ref) →
        (delete_product ref db).1.isSome ∧
        (delete_product ref db).2 = db.filter (fun p => !(p.reference == ref)) ∧
        (∀ p ∈ db, p.reference ≠ ref → p ∈ (delete_product ref db).2) ∧
        (∀ p ∈ (delete_product ref db).2, p ∈ db ∧ p.reference ≠ ref)) := by
  constructor
  · intro h
    have hfind : db.find? (fun q => q.reference == ref) = none := by
      rw [List.find?_eq_none]
      intro x hx
      simp [h x hx]
    simp [delete_product, hfind]
  · rintro ⟨q, hq, he⟩
    have hsome : (db.find? (fun q => q.reference == ref)).isSome := by
      rw [List.find?_isSome]
      exact ⟨q, hq, by simp [he]⟩
    rcases Option.isSome_iff_exists.1 hsome with ⟨q2, hq2⟩
    refine ⟨by simp [delete_product, hq2], by simp [delete_product, hq2], ?_, ?_⟩
    · intro p hp hne
      simp [delete_product, hq2, List.mem_filter, hp, hne]
    · intro p hp
      simp only [delete_product, hq2, List.mem_filter] at hp
      refine ⟨hp.1, ?_⟩
      have := hp.2
      simp only [Bool.not_eq_true', beq_eq_false_iff_ne, ne_eq] at this
      exact this

/-- Witness for C8: deleting an absent reference answers 404 and changes
nothing; deleting P1 from a two-row table keeps exactly the row P2. -/
theorem C8_witness :
    delete_product "NOPE" [⟨"P1", "D", 2, "U", "F", "B", "t0"⟩] =
      (none, [⟨"P1", "D", 2, "U", "F", "B", "t0"⟩]) ∧
    (delete_product "P1"
        [⟨"P1", "D", 2, "U", "F", "B", "t0"⟩, ⟨"P2", "E", 3, "U", "G", "B", "t1"⟩]).2 =
      [⟨"P1", "D", 2, "U", "F", "B", "t0"⟩, ⟨"P2", "E", 3, "U", "G", "B", "t1"⟩].filter
        (fun p => !(p.reference == "P1")) :=
  ⟨(C8_delete_product_spec "NOPE" [⟨"P1", "D", 2, "U", "F", "B", "t0"⟩]).1 (by decide),
   ((C8_delete_product_spec "P1"
      [⟨"P1", "D", 2, "U", "F", "B", "t0"⟩, ⟨"P2", "E", 3, "U", "G", "B", "t1"⟩]).2
      ⟨⟨"P1", "D", 2, "U", "F", "B", "t0"⟩, by simp, rfl⟩).2.1⟩

/-- C5 counterexample: the claim says a POST carrying a price below zero is
rejected and leaves the store unchanged; in the code `add_product` performs
no price check, so on an empty table a POST with price -1 succeeds and the
row is persisted with price -1. -/
theorem C5_counterexample :
    (add_product "t0" ⟨"P1", "D", -1, "U", "F", "B"⟩ []).1 = PostStatus.ok ∧
    (add_product "t0" ⟨"P1", "D", -1, "U", "F", "B"⟩ []).2 =
      [⟨"P1", "D", -1, "U", "F", "B", "t0"⟩] ∧
    ((-1 : Rat) < 0) := by decide

/-- C5 amended: POST /api/products and PUT /api/products/reference perform
no validation of price — whenever the reference is fresh the insert
succeeds and stores exactly the supplied price, negative or not, and an
update overwrites price with any supplied value; so price at least 0 is
not an invariant of stored products. -/
theorem C5_amended_no_price_validation (now : String) (p : Product)
    (db : List StoredProduct) (h : ∀ q ∈ db, q.reference ≠ p.reference) :
    (add_product now p db).1 = PostStatus.ok ∧
    (∃ r ∈ (add_product now p db).2, r.reference = p.reference ∧ r.price = p.price) ∧
    (∀ (u : ProductUpdate) (q : StoredProduct) (pr : Rat),
        u.price = some pr → (u.applyTo q).price = pr) := by
  have hne : ¬ ∃ q ∈ db, q.reference = p.reference := by
    rintro ⟨q, hq, he⟩
    exact h q hq he
  refine ⟨by simp [add_product, hne], ?_, ?_⟩
  · refine ⟨p.toStored now, ?_, rfl, rfl⟩
    simp [add_product, hne]
  · intro u q pr hu
    simp [ProductUpdate.applyTo, hu]

/-- Witness for C5 amended: on an empty table a POST with price -1
succeeds and a row with price -1 is among the stored rows. -/
theorem C5_amended_witness :
    (add_product "t0" ⟨"P1", "D", -1, "U", "F", "B"⟩ []).1 = PostStatus.ok ∧
    (∃ r ∈ (add_product "t0" ⟨"P1", "D", -1, "U", "F", "B"⟩ []).2,
      r.reference = "P1" ∧ r.price = -1) :=
  ⟨(C5_amended_no_price_validation "t0" ⟨"P1", "D", -1, "U", "F", "B"⟩ [] (by simp)).1,
   (C5_amended_no_price_validation "t0" ⟨"P1", "D", -1, "U", "F", "B"⟩ [] (by simp)).2.1⟩

/-- C6 counterexample: the claim says every persisted product carries an
updated_at timestamp that every update refreshes; the products table has
no updated_at column and `update_product` reads no clock, so updating the
designation of R1 yields a post-state whose only timestamp, created_at,
still holds the insertion value t0 — no timestamp is refreshed. -/
theorem C6_counterexample :
    update_product "R1" ⟨some "X", none, none, none, none⟩
        [⟨"R1", "D", 2, "U", "F", "B", "t0"⟩] =
      (some ⟨"R1", "X", 2, "U", "F", "B", "t0"⟩,
       [⟨"R1", "X", 2, "U", "F", "B", "t0"⟩]) := by decide

/-- C6 amended: every persisted product carries a single created_at
timestamp set when the row is inserted; there is no updated_at column, and
PUT /api/products/reference changes only the supplied fields, leaving the
created_at of every row — hence every stored timestamp — unchanged. -/
theorem C6_amended_created_at_only (now : String) (p : Product)
    (db : List StoredProduct) (h : ∀ q ∈ db, q.reference ≠ p.reference) :
    (∃ r ∈ (add_product now p db).2, r.reference = p.reference ∧ r.created_at = now) ∧
    (∀ (ref : String) (u : ProductUpdate),
        (update_product ref u db).2.map StoredProduct.created_at =
          db.map StoredProduct.created_at) := by
  have hne : ¬ ∃ q ∈ db, q.reference = p.reference := by
    rintro ⟨q, hq, he⟩
    exact h q hq he
  constructor
  · refine ⟨p.toStored now, ?_, rfl, rfl⟩
    simp [add_product, hne]
  · intro ref u
    by_cases hex : ∃ q ∈ db, q.reference = ref
    · simp only [update_product, if_pos hex, List.map_map]
      apply List.map_congr_left
      intro q _
      by_cases hqr : q.reference = ref <;> simp [hqr, ProductUpdate.applyTo]
    · simp [update_product, hex]

/-- Witness for C6 amended: inserting P1 at time t5 stores created_at t5,
and an update of R1 leaves the list of created_at values untouched. -/
theorem C6_amended_witness :
    (∃ r ∈ (add_product "t5" ⟨"P1", "D", 2, "U", "F", "B"⟩
        [⟨"R1", "D", 2, "U", "F", "B", "t0"⟩]).2,
      r.reference = "P1" ∧ r.created_at = "t5") ∧
    (update_product "R1" ⟨some "X", none, none, none, none⟩
        [⟨"R1", "D", 2, "U", "F", "B", "t0"⟩]).2.map StoredProduct.created_at =
      [⟨"R1", "D", 2, "U", "F", "B", "t0"⟩].map StoredProduct.created_at :=
  ⟨(C6_amended_created_at_only "t5" ⟨"P1", "D", 2, "U", "F", "B"⟩
      [⟨"R1", "D", 2, "U", "F", "B", "t0"⟩] (by decide)).1,
   (C6_amended_created_at_only "t5" ⟨"P1", "D", 2, "U", "F", "B"⟩
      [⟨"R1", "D", 2, "U", "F", "B", "t0"⟩] (by decide)).2
      "R1" ⟨some "X", none, none, none, none⟩⟩

/-- C7: POST /api/login answers 401 (response `none`) exactly when no
stored user has the supplied email together with a stored password equal
to the hash of the supplied password; on success the response is the
matched user's record with the password key removed (so the hash is never
in the response), and POST /api/users stores
only the hash of the plaintext it is given. -/
theorem C7_login_spec (hash : String → String) (now : String) (req : LoginRequest)
    (db : List StoredUser) :
    ((login hash now req db).1 = none ↔
        ¬ ∃ u ∈ db, u.email = req.email ∧ u.password = hash req.password) ∧
    (∀ resp, (login hash now req db).1 = some resp →
        ∃ u ∈ db, u.email = req.email ∧ u.password = hash req.password ∧
          resp = u.toPublic) ∧
    (∀ (u : StoredUser) (pw : String),
        StoredUser.toPublic { u with password := pw } = u.toPublic) ∧
    (∀ u : StoredUser,
        u.toPublic.email = u.email ∧ u.toPublic.name = u.name ∧
        u.toPublic.role = u.role ∧ u.toPublic.created_at = u.created_at ∧
        u.toPublic.last_login = u.last_login) ∧
    (∀ (now2 : String) (nu : UserCreate) (db2 : List StoredUser),
        (create_user hash now2 nu db2).1 = true →
          ∃ su ∈ (create_user hash now2 nu db2).2,
            su.email = nu.email ∧ su.password = hash nu.password) := by
  refine ⟨?_, ?_, fun u pw => rfl, fun u => ⟨rfl, rfl, rfl, rfl, rfl⟩, ?_⟩
  · cases hfind : db.find?
        (fun u => u.email == req.email && u.password == hash req.password) with
    | none =>
      have hall : ∀ x ∈ db,
          ¬(x.email == req.email && x.password == hash req.password) = true :=
        List.find?_eq_none.1 hfind
      simp only [login, hfind]
      constructor
      · rintro - ⟨u, hu, he, hp⟩
        exact hall u hu (by simp [he, hp])
      · intro _
        trivial
    | some u =>
      have hu := List.mem_of_find?_eq_some hfind
      have hp := List.find?_some hfind
      simp only [Bool.and_eq_true, beq_iff_eq] at hp
      simp only [login, hfind]
      constructor
      · intro h
        exact absurd h (by simp)
      · intro h
        exact absurd ⟨u, hu, hp.1, hp.2⟩ h
  · intro resp hresp
    cases hfind : db.find?
        (fun u => u.email == req.email && u.password == hash req.password) with
    | none =>
      simp [login, hfind] at hresp
    | some u =>
      have hu := List.mem_of_find?_eq_some hfind
      have hp := List.find?_some hfind
      simp only [Bool.and_eq_true, beq_iff_eq] at hp
      simp only [login, hfind, Option.some.injEq] at hresp
      exact ⟨u, hu, hp.1, hp.2, hresp.symm⟩
  · intro now2 nu db2 hok
    by_cases hex : ∃ v ∈ db2, v.email = nu.email
    · simp [create_user, hex] at hok
    · refine ⟨⟨nu.email, nu.name, hash nu.password, nu.role, now2, none⟩, ?_, rfl, rfl⟩
      simp [create_user, hex]

/-- Witness for C7: with the abstract digest prepending h, the login of
a-at-b with password pw against its stored hash hpw succeeds and the
response is the record without the password; creating user c-at-d stores
the hash of pw2. -/
theorem C7_witness :
    (∃ u ∈ [(⟨"a@b", "N", "hpw", "user", "t0", none⟩ : StoredUser)],
        u.email = "a@b" ∧
        u.password = (fun s => String.append "h" s) "pw" ∧
        (⟨"a@b", "N", "user", "t0", none⟩ : PublicUser) = u.toPublic) ∧
    (∃ su ∈ (create_user (fun s => String.append "h" s) "t2"
          ⟨"c@d", "M", "pw2", "user"⟩ []).2,
        su.email = "c@d" ∧ su.password = (fun s => String.append "h" s) "pw2") :=
  ⟨(C7_login_spec (fun s => String.append "h" s) "t1" ⟨"a@b", "pw"⟩
        [⟨"a@b", "N", "hpw", "user", "t0", none⟩]).2.1
      ⟨"a@b", "N", "user", "t0", none⟩ (by decide),
   (C7_login_spec (fun s => String.append "h" s) "t1" ⟨"a@b", "pw"⟩
        [⟨"a@b", "N", "hpw", "user", "t0", none⟩]).2.2.2.2 "t2"
      ⟨"c@d", "M", "pw2", "user"⟩ [] (by decide)⟩

/-- C9: GET /api/users serializes every stored user exactly once, in
order, keeping email, name, role, created_at and last_login; the password
column is never read, so the response is unchanged under any rewriting of
the stored passwords. -/
theorem C9_get_users_spec (db : List StoredUser) :
    get_users db = db.map StoredUser.toPublic ∧
    (get_users db).length = db.length ∧
    (∀ u ∈ db, u.toPublic ∈ get_users db) ∧
    (∀ u : StoredUser,
        u.toPublic.email = u.email ∧ u.toPublic.name = u.name ∧
        u.toPublic.role = u.role ∧ u.toPublic.created_at = u.created_at ∧
        u.toPublic.last_login = u.last_login) ∧
    (∀ f : StoredUser → String,
        get_users (db.map (fun u => { u with password := f u })) = get_users db) := by
  refine ⟨rfl, by simp [get_users], ?_, fun u => ⟨rfl, rfl, rfl, rfl, rfl⟩, ?_⟩
  · intro u hu
    exact List.mem_map.2 ⟨u, hu, rfl⟩
  · intro f
    simp only [get_users, List.map_map]
    apply List.map_congr_left
    intro u _
    rfl

/-- Witness for C9: the single stored user appears in the GET response,
and the response is exactly the password-free projection of the table. -/
theorem C9_witness :
    StoredUser.toPublic ⟨"a@b", "N", "hpw", "user", "t0", none⟩ ∈
      get_users [⟨"a@b", "N", "hpw", "user", "t0", none⟩] ∧
    get_users [⟨"a@b", "N", "hpw", "user", "t0", none⟩] =
      [(⟨"a@b", "N", "hpw", "user", "t0", none⟩ : StoredUser)].map StoredUser.toPublic :=
  ⟨(C9_get_users_spec [⟨"a@b", "N", "hpw", "user", "t0", none⟩]).2.2.1
      ⟨"a@b", "N", "hpw", "user", "t0", none⟩ (by simp),
   (C9_get_users_spec [⟨"a@b", "N", "hpw", "user", "t0", none⟩]).1⟩

/-- C10: a failed login (401) writes nothing; a successful login rewrites
only the last_login of the rows with the supplied email, keeping every
other row and every other column (password included) as they were. -/
theorem C10_login_frame (hash : String → String) (now : String)
    (req : LoginRequest) (db : List StoredUser) :
    ((login hash now req db).1 = none → (login hash now req db).2 = db) ∧
    ((login hash now req db).1.isSome →
        (login hash now req db).2 =
          db.map (fun v => if v.email = req.email then
            { v with last_login := some now } else v) ∧
        (∀ v ∈ db, v.email ≠ req.email → v ∈ (login hash now req db).2) ∧
        (∀ v : StoredUser,
          ({ v with last_login := some now } : StoredUser).email = v.email ∧
          ({ v with last_login := some now } : StoredUser).name = v.name ∧
          ({ v with last_login := some now } : StoredUser).password = v.password ∧
          ({ v with last_login := some now } : StoredUser).role = v.role ∧
          ({ v with last_login := some now } : StoredUser).created_at = v.created_at)) := by
  cases hfind : db.find?
      (fun u => u.email == req.email && u.password == hash req.password) with
  | none =>
    constructor
    · intro _
      simp [login, hfind]
    · intro h
      simp [login, hfind] at h
  | some u =>
    constructor
    · intro h
      simp [login, hfind] at h
    · intro _
      refine ⟨by simp [login, hfind], ?_, fun v => ⟨rfl, rfl, rfl, rfl, rfl⟩⟩
      intro v hv hne
      simp only [login, hfind]
      exact List.mem_map.2 ⟨v, hv, by simp [hne]⟩

/-- Witness for C10: a wrong-password login leaves the single-row table
unchanged; the matching login rewrites exactly the last_login of that
row. -/
theorem C10_witness :
    (login (fun s => String.append "h" s) "t1" ⟨"a@b", "bad"⟩
        [⟨"a@b", "N", "hpw", "user", "t0", none⟩]).2 =
      [⟨"a@b", "N", "hpw", "user", "t0", none⟩] ∧
    (login (fun s => String.append "h" s) "t1" ⟨"a@b", "pw"⟩
        [⟨"a@b", "N", "hpw", "user", "t0", none⟩]).2 =
      [(⟨"a@b", "N", "hpw", "user", "t0", none⟩ : StoredUser)].map
        (fun v => if v.email = "a@b" then { v with last_login := some "t1" } else v) :=
  ⟨(C10_login_frame (fun s => String.append "h" s) "t1" ⟨"a@b", "bad"⟩
      [⟨"a@b", "N", "hpw", "user", "t0", none⟩]).1 (by decide),
   ((C10_login_frame (fun s => String.append "h" s) "t1" ⟨"a@b", "pw"⟩
      [⟨"a@b", "N", "hpw", "user", "t0", none⟩]).2 (by decide)).1⟩

theorem reportCombine_empty (r : BatchReport) : reportCombine r emptyReport = r := by
  cases r
  simp [reportCombine, emptyReport]

theorem reportCombine_assoc (r s t : BatchReport) :
    reportCombine (reportCombine r s) t = reportCombine r (reportCombine s t) := by
  cases r
  cases s
  cases t
  simp [reportCombine, Nat.add_assoc]

theorem syncStep_fst (now : String) (acc : BatchReport × List StoredProduct) (p : Product) :
    (syncStep now acc p).1 =
      reportCombine acc.1 (syncStep now (emptyReport, acc.2) p).1 := by
  by_cases hok : batchItemOk p
  · by_cases hex : ∃ q ∈ acc.2, q.reference = p.reference
    · simp [syncStep, upsert_product, hok, hex, reportCombine, emptyReport]
    · simp [syncStep, upsert_product, hok, hex, reportCombine, emptyReport]
  · simp [syncStep, hok, reportCombine, emptyReport]

theorem syncStep_snd (now : String) (acc : BatchReport × List StoredProduct) (p : Product) :
    (syncStep now acc p).2 = (syncStep now (emptyReport, acc.2) p).2 := by
  by_cases hok : batchItemOk p
  · by_cases hex : ∃ q ∈ acc.2, q.reference = p.reference
    · simp [syncStep, upsert_product, hok, hex]
    · simp [syncStep, upsert_product, hok, hex]
  · simp [syncStep, hok]

theorem batch_shift (now : String) (items : List Product)
    (acc : BatchReport × List StoredProduct) :
    items.foldl (syncStep now) acc =
      (reportCombine acc.1 (products_batch now items acc.2).1,
       (products_batch now items acc.2).2) := by
  induction items generalizing acc with
  | nil => simp [products_batch, reportCombine_empty]
  | cons p items ih =>
    rw [List.foldl_cons, ih (syncStep now acc p)]
    simp only [products_batch, List.foldl_cons]
    rw [ih (syncStep now (emptyReport, acc.2) p)]
    rw [syncStep_fst, syncStep_snd, reportCombine_assoc]
    rfl

theorem syncStep_total_one (now : String) (db : List StoredProduct) (p : Product) :
    (syncStep now (emptyReport, db) p).1.total = 1 := by
  by_cases hok : batchItemOk p
  · by_cases hex : ∃ q ∈ db, q.reference = p.reference
    · simp [syncStep, upsert_product, hok, hex, emptyReport]
    · simp [syncStep, upsert_product, hok, hex, emptyReport]
  · simp [syncStep, hok, emptyReport]

theorem syncStep_sum_one (now : String) (db : List StoredProduct) (p : Product) :
    (syncStep now (emptyReport, db) p).1.created +
      (syncStep now (emptyReport, db) p).1.updated +
      (syncStep now (emptyReport, db) p).1.failed = 1 := by
  by_cases hok : batchItemOk p
  · by_cases hex : ∃ q ∈ db, q.reference = p.reference
    · simp [syncStep, upsert_product, hok, hex, emptyReport]
    · simp [syncStep, upsert_product, hok, hex, emptyReport]
  · simp [syncStep, hok, emptyReport]

theorem syncStep_failed_eq (now : String) (db : List StoredProduct) (p : Product) :
    (syncStep now (emptyReport, db) p).1.failed =
      (if batchItemOk p then 0 else 1) := by
  by_cases hok : batchItemOk p
  · by_cases hex : ∃ q ∈ db, q.reference = p.reference
    · simp [syncStep, upsert_product, hok, hex, emptyReport]
    · simp [syncStep, upsert_product, hok, hex, emptyReport]
  · simp [syncStep, hok, emptyReport]

theorem syncStep_errors_eq (now : String) (db : List StoredProduct) (p : Product) :
    (syncStep now (emptyReport, db) p).1.errors =
      (if batchItemOk p then [] else [(p.reference, batchErrMsg)]) := by
  by_cases hok : batchItemOk p
  · by_cases hex : ∃ q ∈ db, q.reference = p.reference
    · simp [syncStep, upsert_product, hok, hex, emptyReport]
    · simp [syncStep, upsert_product, hok, hex, emptyReport]
  · simp [syncStep, hok, emptyReport]

theorem syncStep_store_eq (now : String) (db : List StoredProduct) (p : Product) :
    (syncStep now (emptyReport, db) p).2 = batchStoreStep now db p := by
  by_cases hok : batchItemOk p
  · simp [syncStep, batchStoreStep, hok]
  · simp [syncStep, batchStoreStep, hok]

theorem pb_total (now : String) (items : List Product) :
    ∀ db : List StoredProduct, (products_batch now items db).1.total = items.length := by
  induction items with
  | nil => intro db; rfl
  | cons p items ih =>
    intro db
    have hsh := batch_shift now items (syncStep now (emptyReport, db) p)
    simp only [products_batch, List.foldl_cons, List.length_cons]
    rw [hsh]
    simp only [reportCombine]
    rw [syncStep_total_one, ih ((syncStep now (emptyReport, db) p).2)]
    omega

theorem pb_sum (now : String) (items : List Product) :
    ∀ db : List StoredProduct,
      (products_batch now items db).1.created + (products_batch now items db).1.updated +
        (products_batch now items db).1.failed = items.length := by
  induction items with
  | nil => intro db; rfl
  | cons p items ih =>
    intro db
    have hsh := batch_shift now items (syncStep now (emptyReport, db) p)
    have hone := syncStep_sum_one now db p
    have hrec := ih ((syncStep now (emptyReport, db) p).2)
    simp only [products_batch, List.foldl_cons, List.length_cons]
    rw [hsh]
    simp only [reportCombine]
    omega

theorem pb_failed (now : String) (items : List Product) :
    ∀ db : List StoredProduct,
      (products_batch now items db).1.failed =
        (items.filter (fun p => !batchItemOk p)).length := by
  induction items with
  | nil => intro db; rfl
  | cons p items ih =>
    intro db
    have hsh := batch_shift now items (syncStep now (emptyReport, db) p)
    simp only [products_batch, List.foldl_cons]
    rw [hsh]
    simp only [reportCombine]
    rw [syncStep_failed_eq, ih ((syncStep now (emptyReport, db) p).2)]
    by_cases hok : batchItemOk p
    · simp [List.filter_cons, hok]
    · simp [List.filter_cons, hok, Nat.add_comm]

theorem pb_errors (now : String) (items : List Product) :
    ∀ db : List StoredProduct,
      (products_batch now items db).1.errors = batchErrors items := by
  induction items with
  | nil => intro db; rfl
  | cons p items ih =>
    intro db
    have hsh := batch_shift now items (syncStep now (emptyReport, db) p)
    simp only [products_batch, List.foldl_cons]
    rw [hsh]
    simp only [reportCombine]
    rw [syncStep_errors_eq, ih ((syncStep now (emptyReport, db) p).2)]
    by_cases hok : batchItemOk p
    · simp [batchErrors, List.filter_cons, hok]
    · simp [batchErrors, List.filter_cons, hok]

theorem pb_store (now : String) (items : List Product) :
    ∀ db : List StoredProduct,
      (products_batch now items db).2 = items.foldl (batchStoreStep now) db := by
  induction items with
  | nil => intro db; rfl
  | cons p items ih =>
    intro db
    have hsh := batch_shift now items (syncStep now (emptyReport, db) p)
    have h2 : (List.foldl (syncStep now) (syncStep now (emptyReport, db) p) items).2 =
        (products_batch now items ((syncStep now (emptyReport, db) p).2)).2 := by
      rw [hsh]
    simp only [products_batch, List.foldl_cons]
    rw [h2, ih ((syncStep now (emptyReport, db) p).2), syncStep_store_eq]

/-- C1: POST /api/products/batch processes the input sequence in order,
upserting each valid item independently of the others (an invalid item is
caught locally and leaves the store untouched), and answers with the total
item count, counts of created, updated and failed summing to it, and the
ordered list of per-item errors, one reference-and-message pair per failed
item; splitting the input anywhere shows a failure never aborts the
processing of the remaining items. -/
theorem C1_products_batch_spec (now : String) (items : List Product)
    (db : List StoredProduct) :
    (products_batch now items db).1.total = items.length ∧
    (products_batch now items db).1.created + (products_batch now items db).1.updated +
      (products_batch now items db).1.failed = items.length ∧
    (products_batch now items db).1.failed =
      (items.filter (fun p => !batchItemOk p)).length ∧
    (products_batch now items db).1.errors = batchErrors items ∧
    (products_batch now items db).2 = items.foldl (batchStoreStep now) db ∧
    (∀ xs ys : List Product,
        products_batch now (xs ++ ys) db =
          (reportCombine (products_batch now xs db).1
            (products_batch now ys ((products_batch now xs db).2)).1,
           (products_batch now ys ((products_batch now xs db).2)).2)) := by
  refine ⟨pb_total now items db, pb_sum now items db, pb_failed now items db,
    pb_errors now items db, pb_store now items db, ?_⟩
  intro xs ys
  have h1 : products_batch now (xs ++ ys) db =
      ys.foldl (syncStep now) (products_batch now xs db) := by
    simp [products_batch, List.foldl_append]
  rw [h1, batch_shift now ys (products_batch now xs db)]

/-- C2: DA submission is all-or-nothing — whenever the freshly generated
da_number is not yet in the store and the submission answers an error (any
line-item insert failed, for instance quantity 0, or the line-item list was
empty), the post-state holds zero headers and zero line-items for that
da_number: everything written for the request has been removed. -/
theorem C2_da_all_or_nothing (da now : String) (inp : DAInput) (st : DAState)
    (hreq : st.requests.all (fun h => !(h.da_number == da)) = true)
    (hart : st.da_articles.all (fun a => !(a.da_number == da)) = true)
    (e : String) (st2 : DAState)
    (hrun : submitDA da now inp st = (some e, st2)) :
    st2.requests.all (fun h => !(h.da_number == da)) = true ∧
    st2.da_articles.all (fun a => !(a.da_number == da)) = true := by
  by_cases hemp : inp.articles.isEmpty
  · simp only [submitDA, hemp, if_true, Prod.mk.injEq] at hrun
    rw [← hrun.2]
    exact ⟨hreq, hart⟩
  · cases hins : insertArticles da inp.articles
        { st with requests :=
            st.requests ++ [⟨da, inp.user_email, inp.user_name, inp.site, "pending",
                             inp.attachment_filename, inp.comments, now⟩] } with
    | ok st3 =>
      simp [submitDA, hemp, hins] at hrun
    | error stp =>
      simp only [submitDA, hemp, if_false, hins, Bool.false_eq_true, Prod.mk.injEq] at hrun
      rw [← hrun.2]
      constructor
      · rw [List.all_eq_true]
        intro x hx
        exact (List.mem_filter.1 hx).2
      · rw [List.all_eq_true]
        intro x hx
        exact (List.mem_filter.1 hx).2

/-- Witness for C2: on an empty store, the spec's own test case — three
valid line-items and one with quantity 0 — fails, and the post-state holds
no header and no line-item for DA-1. -/
theorem C2_witness :
    (submitDA "DA-1" "t"
        ⟨"a@b", "N", "S",
         [⟨"P1", "A", 1, "U", 2⟩, ⟨"P2", "B", 2, "U", 3⟩, ⟨"P3", "C", 1, "U", 1⟩,
          ⟨"P4", "D", 0, "U", 1⟩], none, none⟩
        ⟨[], []⟩ = (some "InvalidRequest", ⟨[], []⟩)) ∧
    ((⟨[], []⟩ : DAState).requests.all (fun h => !(h.da_number == "DA-1")) = true ∧
     (⟨[], []⟩ : DAState).da_articles.all (fun a => !(a.da_number == "DA-1")) = true) :=
  ⟨by decide,
   C2_da_all_or_nothing "DA-1" "t"
     ⟨"a@b", "N", "S",
      [⟨"P1", "A", 1, "U", 2⟩, ⟨"P2", "B", 2, "U", 3⟩, ⟨"P3", "C", 1, "U", 1⟩,
       ⟨"P4", "D", 0, "U", 1⟩], none, none⟩
     ⟨[], []⟩ (by decide) (by decide) "InvalidRequest" ⟨[], []⟩ (by decide)⟩
